import Mathlib

/-! SaverFox backend — shallow embedding and verification.

This file embeds the transactional game-state engine of the SaverFox
backend (NestJS/TypeORM, `src/apps/api-ts`) in Lean 4 and proves or
refutes the frozen specification claims against it.

Modelling conventions:
* Entity ids are `Nat` (opaque 128-bit ids in the source).
* Monetary amounts (`decimal(10,2)` columns read through JS `Number`)
  are modelled as exact rationals `ℚ`.
* Timestamps are `Int` minutes since the epoch (UTC); a server-local
  timezone offset `tz` (local = UTC + tz minutes) is passed explicitly
  where the source consults the local clock.
* Each service method becomes a function `Db → ... → Except ApiError α × Db`
  returning the committed database state.  TypeORM's
  `dataSource.transaction` started *inside* another transaction runs on
  its own connection and commits independently; the embedding mirrors
  this: `walletCredit` / `walletDebit` commit their own writes, and a
  caller that fails later rolls back only its own manager's writes.
* A `saveFails` boolean models a storage failure of the caller's later
  `manager.save` step, to examine the rollback behaviour.
-/

set_option maxHeartbeats 2000000
set_option maxRecDepth 8000

namespace SaverFox

/-- Monetary amounts: exact rationals (JS numbers over `decimal(10,2)`). -/
abbrev Money := ℚ

/-! ### Exact rational arithmetic

Mathlib marks `Rat.add`, `Rat.sub`, `Rat.mul` and `Rat.inv` as
`@[irreducible]`, which blocks kernel evaluation (`decide`) of closed runs
of the model.  The model therefore computes with the following
kernel-reducible implementations; the `ratAdd_eq` … bridge lemmas in the
theorem section prove each one equal to the corresponding standard
operation, and the symbolic theorems are stated with the standard
operations. -/

/-- Addition on `ℚ`, kernel-reducible (`ratAdd_eq : ratAdd a b = a + b`). -/
def ratAdd (a b : ℚ) : ℚ := mkRat (a.num * b.den + b.num * a.den) (a.den * b.den)

/-- Subtraction on `ℚ`, kernel-reducible (`ratSub_eq`). -/
def ratSub (a b : ℚ) : ℚ := mkRat (a.num * b.den - b.num * a.den) (a.den * b.den)

/-- Multiplication on `ℚ`, kernel-reducible (`ratMul_eq`). -/
def ratMul (a b : ℚ) : ℚ := mkRat (a.num * b.num) (a.den * b.den)

/-- Division on `ℚ`, kernel-reducible (`ratDiv_eq`). -/
def ratDiv (a b : ℚ) : ℚ := Rat.divInt (a.num * b.den) (a.den * b.num)

/-- JS `Math.min` on `ℚ`, kernel-reducible (`ratMin_eq : ratMin a b = min a b`). -/
def ratMin (a b : ℚ) : ℚ := if a ≤ b then a else b

/-- JS `Math.floor` on `ℚ`, kernel-reducible (`ratFloor_eq : ratFloor a = ⌊a⌋`). -/
def ratFloor (a : ℚ) : Int := a.num / (a.den : Int)

/-- Decidable equality for `Except`, which core does not provide; needed so
closed runs of the model can be checked with `decide`. -/
instance {ε α : Type} [DecidableEq ε] [DecidableEq α] : DecidableEq (Except ε α) := fun a b =>
  match a, b with
  | .error e₁, .error e₂ =>
    if h : e₁ = e₂ then isTrue (by rw [h]) else isFalse (by intro hc; cases hc; exact h rfl)
  | .error _, .ok _ => isFalse (by intro hc; cases hc)
  | .ok _, .error _ => isFalse (by intro hc; cases hc)
  | .ok a₁, .ok a₂ =>
    if h : a₁ = a₂ then isTrue (by rw [h]) else isFalse (by intro hc; cases hc; exact h rfl)

/-- The NestJS exception kinds raised by the services under `src/apps/api-ts`. -/
inductive ApiError
  | badRequest (msg : String)
  | notFound (msg : String)
  | forbidden (msg : String)
  | internal (msg : String)
deriving Repr, DecidableEq

/-- `wallets` row (`src/apps/api-ts/src/entities/wallet.entity`). -/
structure Wallet where
  id : Nat
  userId : Nat
  balance : Money
deriving Repr, DecidableEq

/-- `wallet_transactions` ledger row (signed amount). -/
structure WalletTransaction where
  walletId : Nat
  amount : Money
  transactionType : String
  description : String
deriving Repr, DecidableEq

/-- `characters` catalog row. -/
structure Character where
  id : Nat
  name : String
  isStarter : Bool
  price : Money
deriving Repr, DecidableEq

/-- `foods` catalog row. -/
structure Food where
  id : Nat
  name : String
  nutritionValue : Int
  price : Money
deriving Repr, DecidableEq

/-- `user_inventory` row; at most one per `(userId, itemType, itemId)`. -/
structure InventoryRow where
  userId : Nat
  itemType : String
  itemId : Nat
  quantity : Int
deriving Repr, DecidableEq

/-- `missions` row.  The jsonb `requirements` map is flattened to the two
keys the service reads (`requirements.expenseCount`, `requirements.savingCount`);
a key absent from the stored map is `none`. -/
structure Mission where
  id : Nat
  title : String
  missionType : String
  reqExpenseCount : Option Nat
  reqSavingCount : Option Nat
  rewardCoins : Money
  activeDate : Int
deriving Repr, DecidableEq

/-- `user_missions` row; the jsonb `progress` map flattened to the keys the
service reads (`progress.expenseCount`, `progress.savingCount`). -/
structure UserMissionRow where
  userId : Nat
  missionId : Nat
  progExpenseCount : Option Nat
  progSavingCount : Option Nat
  completed : Bool
  completedAt : Option Int
deriving Repr, DecidableEq

/-- `expenses` activity row. -/
structure ExpenseRow where
  userId : Nat
  amount : Money
  category : String
  description : Option String
deriving Repr, DecidableEq

/-- `savings` activity row. -/
structure SavingRow where
  userId : Nat
  amount : Money
  source : Option String
deriving Repr, DecidableEq

/-- `goals` row. -/
structure Goal where
  id : Nat
  userId : Nat
  title : String
  targetAmount : Money
  currentAmount : Money
  completed : Bool
  completedAt : Option Int
deriving Repr, DecidableEq

/-- `tamagotchis` row. -/
structure TamagotchiRow where
  id : Nat
  userId : Nat
  characterId : Nat
  name : String
  hunger : Int
  happiness : Int
  health : Int
  lastFedAt : Option Int
deriving Repr, DecidableEq

/-- `profiles` row (the fields the adventure orchestrator reads). -/
structure ProfileRow where
  userId : Nat
  age : Nat
  allowance : Money
deriving Repr, DecidableEq

/-- `adventures` row.  `scores` is the persisted jsonb object: a list of
keys each carrying an optional float (`none` models a JS `undefined`
property value). -/
structure Adventure where
  id : Nat
  userId : Nat
  scenarioText : String
  choices : List String
  selectedChoiceIndex : Option Int
  feedback : Option String
  scores : Option (List (String × Option ℚ))
  generationOpikTraceId : Option String
  evaluationOpikTraceId : Option String
  evaluatedAt : Option Int
deriving Repr, DecidableEq

/-- The relational store: exactly the tables the verified operations touch. -/
structure Db where
  wallets : List Wallet := []
  walletTxs : List WalletTransaction := []
  nextWalletId : Nat := 1
  characters : List Character := []
  foods : List Food := []
  inventory : List InventoryRow := []
  missions : List Mission := []
  userMissions : List UserMissionRow := []
  expenses : List ExpenseRow := []
  savings : List SavingRow := []
  goals : List Goal := []
  tamagotchis : List TamagotchiRow := []
  profiles : List ProfileRow := []
  adventures : List Adventure := []
deriving Repr, DecidableEq

/-! ## Wallet engine (`src/apps/api-ts/src/wallet/wallet.service.ts`) -/

/-- `walletRepository.findOne({ where: { userId } })`. -/
def findWallet (db : Db) (u : Nat) : Option Wallet :=
  db.wallets.find? (fun w => w.userId == u)

/-- `manager.save(wallet)` on an existing row: update by primary key. -/
def saveWalletRow (l : List Wallet) (w : Wallet) : List Wallet :=
  l.map (fun x => if x.id == w.id then w else x)

/-- Observable balance of a user's wallet (0 when no wallet row exists). -/
def walletBalance (db : Db) (u : Nat) : Money :=
  ((findWallet db u).map Wallet.balance).getD 0

/-- `WalletService.credit` (wallet.service.ts lines 77–116): runs in its own
`dataSource.transaction`; creates the wallet lazily, adds `amount`,
appends a `+amount` ledger row. -/
def walletCredit (db : Db) (u : Nat) (amount : Money) (transactionType : String)
    (description : Option String) : Except ApiError Wallet × Db :=
  if amount ≤ 0 then (.error (.badRequest "Credit amount must be positive"), db)
  else
    let found := findWallet db u
    let w0 : Wallet := found.getD ⟨db.nextWalletId, u, 0⟩
    let dbA : Db :=
      match found with
      | some _ => db
      | none => { db with wallets := db.wallets ++ [w0], nextWalletId := db.nextWalletId + 1 }
    let w1 : Wallet := { w0 with balance := ratAdd w0.balance amount }
    let dbB : Db := { dbA with wallets := saveWalletRow dbA.wallets w1 }
    let tx : WalletTransaction :=
      ⟨w1.id, amount, transactionType, description.getD ("Credited " ++ toString amount ++ " coins")⟩
    (.ok w1, { dbB with walletTxs := dbB.walletTxs ++ [tx] })

/-- `WalletService.debit` (wallet.service.ts lines 133–176): runs in its own
`dataSource.transaction`; a missing wallet row raises `NotFoundException`,
`balance < amount` raises `BadRequestException`, otherwise subtracts
`amount` and appends a `−amount` ledger row. -/
def walletDebit (db : Db) (u : Nat) (amount : Money) (transactionType : String)
    (description : Option String) : Except ApiError Wallet × Db :=
  if amount ≤ 0 then (.error (.badRequest "Debit amount must be positive"), db)
  else
    match findWallet db u with
    | none => (.error (.notFound "Wallet not found"), db)
    | some w =>
      if w.balance < amount then
        (.error (.badRequest ("Insufficient balance. Current: " ++ toString w.balance ++
          ", Required: " ++ toString amount)), db)
      else
        let w1 : Wallet := { w with balance := ratSub w.balance amount }
        let dbB : Db := { db with wallets := saveWalletRow db.wallets w1 }
        let tx : WalletTransaction :=
          ⟨w.id, -amount, transactionType, description.getD ("Debited " ++ toString amount ++ " coins")⟩
        (.ok w1, { dbB with walletTxs := dbB.walletTxs ++ [tx] })

/-- `WalletService.getBalance` via `getOrCreateWallet` (lazy creation). -/
def getBalance (db : Db) (u : Nat) : Money × Db :=
  match findWallet db u with
  | some w => (w.balance, db)
  | none =>
    let w : Wallet := ⟨db.nextWalletId, u, 0⟩
    (0, { db with wallets := db.wallets ++ [w], nextWalletId := db.nextWalletId + 1 })

/-! ## Mission engine (`src/apps/api-ts/src/mission/mission.controller.ts`,
`MissionService` section of the file) -/

/-- Minutes per day, for timestamp arithmetic. -/
def minutesPerDay : Int := 1440

/-- The UTC date (midnight instant) of the moment `now` — what the spec calls
"the UTC date of the moment of the call". -/
def utcDateOf (now : Int) : Int := minutesPerDay * (now.fdiv minutesPerDay)

/-- The date `MissionService.getTodaysMission` looks up (lines 226–227):
`new Date(Date.UTC(today.getFullYear(), today.getMonth(), today.getDate()))`
— the server-LOCAL calendar day's components re-encoded as a UTC midnight.
`tz` is the server offset in minutes (local = UTC + tz). -/
def getTodaysMissionLookupDate (now tz : Int) : Int :=
  minutesPerDay * ((now + tz).fdiv minutesPerDay)

/-- The date `MissionService.updateMissionProgress` looks up (lines 397–398):
`const today = new Date(); today.setHours(0, 0, 0, 0)` — the instant of
server-LOCAL midnight of the local calendar day. -/
def updateMissionProgressLookupDate (now tz : Int) : Int :=
  minutesPerDay * ((now + tz).fdiv minutesPerDay) - tz

/-- `missionRepository.findOne({ where: { activeDate: d } })`. -/
def selectMissionByDate (missions : List Mission) (d : Int) : Option Mission :=
  missions.find? (fun m => m.activeDate == d)

/-- The mission `getTodaysMission` resolves for a call at `now` on a server
with offset `tz`. -/
def getTodaysMissionSelect (db : Db) (now tz : Int) : Option Mission :=
  selectMissionByDate db.missions (getTodaysMissionLookupDate now tz)

/-- JS `x || d` for an optional numeric field: `undefined` and `0` are falsy. -/
def jsOr (v : Option Nat) (d : Nat) : Nat :=
  match v with
  | none => d
  | some 0 => d
  | some n => n

/-- `MissionService.calculateProgress` (lines 468–501).  Branches exist for
`log_expenses`, `log_savings` and `combined` only; every other
`missionType` (including the seeded `expense_tracking` / `saving_tracking`
/ `tamagotchi_care`) falls through to `return 0`. -/
def calculateProgress (mission : Mission) (expCnt savCnt : Option Nat) : ℚ :=
  if mission.missionType == "log_expenses" then
    let required : Nat := jsOr mission.reqExpenseCount 1
    let current : Nat := jsOr expCnt 0
    ratMin 100 (ratMul (ratDiv (current : ℚ) (required : ℚ)) 100)
  else if mission.missionType == "log_savings" then
    let required : Nat := jsOr mission.reqSavingCount 1
    let current : Nat := jsOr savCnt 0
    ratMin 100 (ratMul (ratDiv (current : ℚ) (required : ℚ)) 100)
  else if mission.missionType == "combined" then
    let expenseRequired : Nat := jsOr mission.reqExpenseCount 0
    let savingRequired : Nat := jsOr mission.reqSavingCount 0
    let expenseCurrent : Nat := jsOr expCnt 0
    let savingCurrent : Nat := jsOr savCnt 0
    let expenseProgress : ℚ :=
      if 0 < expenseRequired then ratMin 1 (ratDiv (expenseCurrent : ℚ) (expenseRequired : ℚ))
      else 1
    let savingProgress : ℚ :=
      if 0 < savingRequired then ratMin 1 (ratDiv (savingCurrent : ℚ) (savingRequired : ℚ))
      else 1
    ratMin 100 (ratMul (ratDiv (ratAdd expenseProgress savingProgress) 2) 100)
  else 0

/-- `manager.findOne(UserMission, { where: { userId, missionId } })`. -/
def findUserMission (db : Db) (u missionId : Nat) : Option UserMissionRow :=
  db.userMissions.find? (fun r => r.userId == u && r.missionId == missionId)

/-- `manager.save(userMission)`: updates the `(userId, missionId)` row if it
exists, otherwise inserts it. -/
def saveUserMission (l : List UserMissionRow) (um : UserMissionRow) : List UserMissionRow :=
  if l.any (fun r => r.userId == um.userId && r.missionId == um.missionId) then
    l.map (fun r => if r.userId == um.userId && r.missionId == um.missionId then um else r)
  else l ++ [um]

/-- `MissionService.updateMissionProgress` (lines 391–459), run on the
caller's transaction manager.  Looks today's mission up by the LOCAL
midnight instant, increments the progress counter, and on the
incomplete→complete transition credits the reward through
`walletService.credit` — which opens its OWN transaction and commits
independently of the caller's.  `saveFails` models the final
`manager.save(userMission)` failing. -/
def updateMissionProgress (db : Db) (u : Nat) (activityType : String) (now tz : Int)
    (saveFails : Bool) : Except ApiError (ℚ × Bool) × Db :=
  match selectMissionByDate db.missions (updateMissionProgressLookupDate now tz) with
  | none => (.ok (0, false), db)
  | some mission =>
    let um0 : UserMissionRow :=
      (findUserMission db u mission.id).getD ⟨u, mission.id, none, none, false, none⟩
    let um1 : UserMissionRow :=
      if activityType == "expense" then
        { um0 with progExpenseCount := some (um0.progExpenseCount.getD 0 + 1) }
      else if activityType == "saving" then
        { um0 with progSavingCount := some (um0.progSavingCount.getD 0 + 1) }
      else um0
    let pct : ℚ := calculateProgress mission um1.progExpenseCount um1.progSavingCount
    if 100 ≤ pct ∧ um1.completed = false then
      let um2 : UserMissionRow := { um1 with completed := true, completedAt := some now }
      match walletCredit db u mission.rewardCoins "mission_reward"
          (some ("Completed mission: " ++ mission.title)) with
      | (.error e, db1) => (.error e, db1)
      | (.ok _, db1) =>
        if saveFails then (.error (.internal "user mission save failed"), db1)
        else (.ok (pct, true), { db1 with userMissions := saveUserMission db1.userMissions um2 })
    else
      if saveFails then (.error (.internal "user mission save failed"), db)
      else (.ok (pct, um1.completed), { db with userMissions := saveUserMission db.userMissions um1 })

/-- Result shape of `MissionService.logExpense` / `logSaving`. -/
structure LogActivityResult where
  logged : Bool
  missionProgress : ℚ
  missionCompleted : Bool
deriving Repr, DecidableEq

/-- `MissionService.logExpense` (lines 291–330): one `dataSource.transaction`
wrapping the expense insert and `updateMissionProgress`.  If the
transaction fails after the reward credit, the manager's writes (expense
row, user-mission row) roll back, but the credit — committed by the wallet
service's own transaction — does not. -/
def logExpense (db : Db) (u : Nat) (amount : Money) (category : String)
    (description : Option String) (now tz : Int) (saveFails : Bool) :
    Except ApiError (LogActivityResult × ExpenseRow) × Db :=
  if amount ≤ 0 then (.error (.badRequest "Expense amount must be positive"), db)
  else
    let expense : ExpenseRow := ⟨u, amount, category, description⟩
    let db1 : Db := { db with expenses := db.expenses ++ [expense] }
    match updateMissionProgress db1 u "expense" now tz saveFails with
    | (.error e, db2) =>
      (.error e, { db with wallets := db2.wallets, walletTxs := db2.walletTxs,
                           nextWalletId := db2.nextWalletId })
    | (.ok (pct, completed), db2) => (.ok (⟨true, pct, completed⟩, expense), db2)

/-- `inventoryRepository.findOne({ where: { userId, itemType, itemId } })`. -/
def findInventory (db : Db) (u : Nat) (itemType : String) (itemId : Nat) : Option InventoryRow :=
  db.inventory.find? (fun r => r.userId == u && r.itemType == itemType && r.itemId == itemId)

/-- `save` of an inventory entity: replace the (unique)
`(userId, itemType, itemId)` row with the updated entity. -/
def saveInventoryRow (l : List InventoryRow) (r1 : InventoryRow) : List InventoryRow :=
  l.map (fun r =>
    if r.userId == r1.userId && r.itemType == r1.itemType && r.itemId == r1.itemId then r1
    else r)

/-- Delete the `(userId, itemType, itemId)` row. -/
def removeInventoryRow (l : List InventoryRow) (u : Nat) (itemType : String) (itemId : Nat) :
    List InventoryRow :=
  l.filter (fun r => !(r.userId == u && r.itemType == itemType && r.itemId == itemId))

/-- Observable inventory quantity of a `(userId, itemType, itemId)` key (0
when the row is absent — quantity‑0 rows are eagerly deleted). -/
def inventoryQty (db : Db) (u : Nat) (itemType : String) (itemId : Nat) : Int :=
  ((findInventory db u itemType itemId).map InventoryRow.quantity).getD 0

/-- `ShopService.userOwnsItem`: a row exists with `quantity > 0`. -/
def userOwnsItem (db : Db) (u : Nat) (itemId : Nat) (itemType : String) : Bool :=
  match findInventory db u itemType itemId with
  | some r => 0 < r.quantity
  | none => false

/-- `ShopService.consumeItem`: decrement by `quantity`, delete the row at 0. -/
def consumeItem (db : Db) (u : Nat) (itemId : Nat) (itemType : String) (quantity : Int) :
    Except ApiError Unit × Db :=
  match findInventory db u itemType itemId with
  | none => (.error (.notFound "Item not found in inventory"), db)
  | some r =>
    if r.quantity < quantity then
      (.error (.badRequest ("Insufficient quantity. Available: " ++ toString r.quantity ++
        ", Required: " ++ toString quantity)), db)
    else
      let q := r.quantity - quantity
      if q = 0 then (.ok (), { db with inventory := removeInventoryRow db.inventory u itemType itemId })
      else (.ok (), { db with inventory := saveInventoryRow db.inventory { r with quantity := q } })

/-- Result of `ShopService.purchaseItem`. -/
structure PurchaseResult where
  success : Bool
  newBalance : Money
  itemId : Nat
deriving Repr, DecidableEq

/-- `ShopService.purchaseItem`: validates the item, then inside one
`dataSource.transaction` debits the wallet via `walletService.debit` —
which runs in its OWN transaction and commits independently — and upserts
the inventory row with the caller's manager.  `inventorySaveFails` models
the inventory write failing after the debit: the caller's transaction
rolls back its own writes, the already-committed debit stays. -/
def purchaseItem (db : Db) (u : Nat) (itemId : Nat) (itemType : String)
    (inventorySaveFails : Bool) : Except ApiError PurchaseResult × Db :=
  if !(itemType == "character" || itemType == "food") then
    (.error (.badRequest "Invalid item type. Must be \"character\" or \"food\""), db)
  else
    let itemInfo : Option (Nat × String × Money) :=
      if itemType == "character" then
        (db.characters.find? (fun c => c.id == itemId)).map (fun c => (c.id, c.name, c.price))
      else
        (db.foods.find? (fun f => f.id == itemId)).map (fun f => (f.id, f.name, f.price))
    match itemInfo with
    | none =>
      (.error (.notFound (if itemType == "character" then "Character not found" else "Food not found")), db)
    | some (iid, iname, price) =>
      match walletDebit db u price "shop_purchase" (some ("Purchased " ++ itemType ++ ": " ++ iname)) with
      | (.error e, db1) => (.error e, db1)
      | (.ok _, db1) =>
        if inventorySaveFails then (.error (.internal "inventory save failed"), db1)
        else
          let db2 : Db :=
            match findInventory db1 u itemType iid with
            | some r =>
              if itemType == "food" then
                { db1 with inventory := saveInventoryRow db1.inventory { r with quantity := r.quantity + 1 } }
              else db1
            | none => { db1 with inventory := db1.inventory ++ [⟨u, itemType, iid, 1⟩] }
          let (bal, db3) := getBalance db2 u
          (.ok ⟨true, bal, iid⟩, db3)

/-! ## Goal engine (`src/apps/api-ts/src/goal/goal.service.ts`) -/

/-- `goalRepository.findOne({ where: { id: goalId, userId } })`. -/
def findGoal (db : Db) (goalId u : Nat) : Option Goal :=
  db.goals.find? (fun g => g.id == goalId && g.userId == u)

/-- `manager.save(goal)`: update by primary key. -/
def saveGoalRow (l : List Goal) (g : Goal) : List Goal :=
  l.map (fun x => if x.id == g.id then g else x)

/-- `GoalService.calculateProgress` (goal.service.ts lines 212–218). -/
def goalCalculateProgress (currentAmount targetAmount : Money) : ℚ :=
  if targetAmount ≤ 0 then 0 else ratMin 100 (ratMul (ratDiv currentAmount targetAmount) 100)

/-- Result of `GoalService.addProgress`. -/
structure AddProgressResult where
  goalId : Nat
  currentAmount : Money
  progress : ℚ
  completed : Bool
  bonusAwarded : Option Int
deriving Repr, DecidableEq

/-- `GoalService.addProgress` (goal.service.ts lines 139–203): one
`dataSource.transaction`; on completion computes
`bonus = Math.floor(targetAmount * 0.1)` and credits it through
`walletService.credit` — the wallet service's OWN transaction — before the
goal row is saved by the caller's manager.  `saveFails` models the final
`manager.save(goal)` failing. -/
def addProgress (db : Db) (goalId u : Nat) (amount : Money) (now : Int)
    (saveFails : Bool) : Except ApiError AddProgressResult × Db :=
  if amount ≤ 0 then (.error (.badRequest "Progress amount must be positive"), db)
  else
    match findGoal db goalId u with
    | none => (.error (.notFound "Goal not found"), db)
    | some goal =>
      if goal.completed then (.error (.badRequest "Goal is already completed"), db)
      else
        let currentAmount : Money := ratAdd goal.currentAmount amount
        let targetAmount : Money := goal.targetAmount
        let progress : ℚ := goalCalculateProgress currentAmount targetAmount
        if targetAmount ≤ currentAmount then
          let bonus : Int := ratFloor (ratMul targetAmount (mkRat 1 10))
          let goal1 : Goal :=
            { goal with currentAmount := currentAmount, completed := true, completedAt := some now }
          match walletCredit db u (bonus : ℚ) "goal_bonus"
              (some ("Completed goal: " ++ goal.title)) with
          | (.error e, db1) => (.error e, db1)
          | (.ok _, db1) =>
            if saveFails then (.error (.internal "goal save failed"), db1)
            else
              (.ok ⟨goal.id, currentAmount, progress, true, some bonus⟩,
                { db1 with goals := saveGoalRow db1.goals goal1 })
        else
          let goal1 : Goal := { goal with currentAmount := currentAmount }
          if saveFails then (.error (.internal "goal save failed"), db)
          else
            (.ok ⟨goal.id, currentAmount, progress, false, none⟩,
              { db with goals := saveGoalRow db.goals goal1 })

/-! ## Tamagotchi engine (`src/apps/api-ts/src/tamagotchi/tamagotchi.service.ts`) -/

/-- `tamagotchiRepository.findOne({ where: { userId } })`. -/
def findTamagotchi (db : Db) (u : Nat) : Option TamagotchiRow :=
  db.tamagotchis.find? (fun t => t.userId == u)

/-- `manager.save(tamagotchi)`: update by primary key. -/
def saveTamagotchiRow (l : List TamagotchiRow) (t : TamagotchiRow) : List TamagotchiRow :=
  l.map (fun x => if x.id == t.id then t else x)

/-- Stat triple returned by `feedTamagotchi`. -/
structure FeedResult where
  hunger : Int
  happiness : Int
  health : Int
deriving Repr, DecidableEq

/-- `TamagotchiService.feedTamagotchi` (tamagotchi.service.ts lines 65–130):
load tamagotchi and food, check ownership, then
`hunger = Math.max(0, hunger - nutritionValue)`,
`happiness = Math.min(100, happiness + Math.floor(nutritionValue / 2))`,
and if the NEW hunger `< 30` then `health = Math.min(100, health + 5)`;
set `lastFedAt = now`, save, and consume one unit from inventory.
`Math.floor(nutritionValue / 2)` on an integer is floor division. -/
def feedTamagotchi (db : Db) (u : Nat) (foodId : Nat) (now : Int) :
    Except ApiError FeedResult × Db :=
  match findTamagotchi db u with
  | none => (.error (.notFound "Tamagotchi not found for this user"), db)
  | some t =>
    match db.foods.find? (fun f => f.id == foodId) with
    | none => (.error (.notFound "Food item not found"), db)
    | some food =>
      if !(userOwnsItem db u foodId "food") then
        (.error (.forbidden "You do not own this food item. Purchase it from the shop first."), db)
      else
        let nutritionValue : Int := food.nutritionValue
        let hunger1 : Int := max 0 (t.hunger - nutritionValue)
        let happinessIncrease : Int := nutritionValue.fdiv 2
        let happiness1 : Int := min 100 (t.happiness + happinessIncrease)
        let health1 : Int := if hunger1 < 30 then min 100 (t.health + 5) else t.health
        let t1 : TamagotchiRow :=
          { t with hunger := hunger1, happiness := happiness1, health := health1,
                   lastFedAt := some now }
        let db1 : Db := { db with tamagotchis := saveTamagotchiRow db.tamagotchis t1 }
        match consumeItem db1 u foodId "food" 1 with
        | (.error e, db2) => (.error e, db2)
        | (.ok _, db2) => (.ok ⟨hunger1, happiness1, health1⟩, db2)

/-! ## AI service client (`src/unnamed/part_013`, `AIServiceClient`) -/

/-- Raw outcome of one attempted HTTP POST to the AI service. -/
inductive CallOutcome
  | ok (body : String)
  | httpError (status : Nat) (msg : String)
  | networkError
deriving Repr, DecidableEq

/-- What a `catch` block receives: an axios error with a response, an axios
error without a response (network/timeout), or a plain JS `Error`. -/
inductive Thrown
  | axiosResponse (status : Nat) (msg : String)
  | axiosNoResponse
  | plain (msg : String)
deriving Repr, DecidableEq

/-- `AIServiceClient.isRetryableError` (part_013 lines 185–200):
`axios.isAxiosError` is false for a plain `Error`, so only genuine axios
errors are retryable — no response, status ≥ 500, or status 429. -/
def isRetryableError : Thrown → Bool
  | .axiosNoResponse => true
  | .axiosResponse status _ => 500 ≤ status || status == 429
  | .plain _ => false

/-- `AIServiceClient.handleError` (part_013 lines 209–234): wraps an axios
response error into `new Error("AI service error: ...")`, an axios
no-response error into `new Error("AI service did not respond")`, and
re-throws anything else unchanged.  The result is always a PLAIN error. -/
def handleError : Thrown → Thrown
  | .axiosResponse _ msg => .plain ("AI service error: " ++ msg)
  | .axiosNoResponse => .plain "AI service did not respond"
  | .plain msg => .plain msg

/-- The function passed to `retryWithBackoff` by `generateAdventure` /
`evaluateChoice`: the POST wrapped in `try/catch` whose catch calls
`handleError`, so every failure reaches the retry loop as a plain error. -/
def attemptCall (outcome : CallOutcome) : Except Thrown String :=
  match outcome with
  | .ok body => .ok body
  | .httpError status msg => .error (handleError (.axiosResponse status msg))
  | .networkError => .error (handleError .axiosNoResponse)

/-- Errors surfaced by `retryWithBackoff`. -/
inductive RetryError
  | serviceUnavailable (msg : String)
  | thrown (e : Thrown)
deriving Repr, DecidableEq

/-- The loop body of `AIServiceClient.retryWithBackoff` (part_013 lines
147–177): for `attempt` in `0..maxRetries`, call `fn`; on success return;
on failure, if `attempt < maxRetries && isRetryableError(error)` sleep
`retryDelay * 2 ** attempt` and continue, else break; after the loop
ALWAYS throw `ServiceUnavailableException`.  The second component records
the backoff delays of the performed retries.  `fuel` is
`maxRetries + 1 - attempt`, so the recursion is structural. -/
def retryGo (fn : Nat → Except Thrown String) (maxRetries retryDelay : Nat) :
    Nat → Nat → List Nat → Except RetryError String × List Nat
  | _, 0, delays =>
    (.error (.serviceUnavailable "AI service is currently unavailable. Please try again later."),
      delays)
  | attempt, fuel + 1, delays =>
    match fn attempt with
    | .ok b => (.ok b, delays)
    | .error e =>
      if attempt < maxRetries && isRetryableError e then
        retryGo fn maxRetries retryDelay (attempt + 1) fuel (delays ++ [retryDelay * 2 ^ attempt])
      else
        (.error (.serviceUnavailable "AI service is currently unavailable. Please try again later."),
          delays)

/-- `AIServiceClient.retryWithBackoff` (part_013 lines 147–177). -/
def retryWithBackoff (fn : Nat → Except Thrown String) (maxRetries retryDelay : Nat) :
    Except RetryError String × List Nat :=
  retryGo fn maxRetries retryDelay 0 (maxRetries + 1) []

/-- An outbound AI call (`generateAdventure` / `evaluateChoice`): the retry
loop applied to the wrapped POST, where `outcomes i` is the raw result of
the `i`-th attempt. -/
def aiServiceCall (outcomes : Nat → CallOutcome) (maxRetries retryDelay : Nat) :
    Except RetryError String × List Nat :=
  retryWithBackoff (fun i => attemptCall (outcomes i)) maxRetries retryDelay

/-! ## Adventure orchestrator (`src/apps/api-ts/src/adventure/adventure.service.ts`) -/

/-- The AI evaluate response: `scores` is the raw JSON object — a free-form
map of named floats (the deployed AI coach emits `age_appropriateness`,
`goal_alignment`, `financial_reasoning`). -/
structure EvaluateChoiceResponse where
  feedback : String
  scores : List (String × ℚ)
  opikTraceId : String
deriving Repr, DecidableEq

/-- JS property read on a JSON object: `undefined` (`none`) if absent. -/
def jsGet (m : List (String × ℚ)) (k : String) : Option ℚ :=
  (m.find? (fun p => p.1 == k)).map (fun p => p.2)

/-- `adventureRepository.findOne({ where: { id, userId } })`. -/
def findAdventure (db : Db) (adventureId u : Nat) : Option Adventure :=
  db.adventures.find? (fun a => a.id == adventureId && a.userId == u)

/-- `adventureRepository.save(adventure)`: update by primary key. -/
def saveAdventureRow (l : List Adventure) (a : Adventure) : List Adventure :=
  l.map (fun x => if x.id == a.id then a else x)

/-- `AdventureService.submitChoice` (adventure.service.ts lines 122–189) for
a successful AI evaluation `response`: validates ownership, one-shot
submission and the index range, then persists
`selectedChoiceIndex`, `feedback`,
`scores = { financial_wisdom: response.scores.financial_wisdom, ... }`
(three FIXED property reads — any other key the AI emitted is dropped,
and an absent key is stored as `undefined`),
`evaluationOpikTraceId = response.opik_trace_id`, `evaluatedAt = now`. -/
def submitChoice (db : Db) (u : Nat) (adventureId : Nat) (choiceIndex : Int)
    (response : EvaluateChoiceResponse) (now : Int) : Except ApiError Adventure × Db :=
  match findAdventure db adventureId u with
  | none => (.error (.notFound "Adventure not found"), db)
  | some adventure =>
    if adventure.selectedChoiceIndex ≠ none then
      (.error (.badRequest "Choice has already been submitted for this adventure"), db)
    else if choiceIndex < 0 ∨ (adventure.choices.length : Int) ≤ choiceIndex then
      (.error (.badRequest ("Invalid choice index. Must be between 0 and " ++
        toString (adventure.choices.length - 1))), db)
    else
      match db.profiles.find? (fun p => p.userId == u) with
      | none => (.error (.notFound "User profile not found"), db)
      | some _ =>
        let adventure1 : Adventure :=
          { adventure with
              selectedChoiceIndex := some choiceIndex,
              feedback := some response.feedback,
              scores := some
                [("financial_wisdom", jsGet response.scores "financial_wisdom"),
                 ("long_term_thinking", jsGet response.scores "long_term_thinking"),
                 ("responsibility", jsGet response.scores "responsibility")],
              evaluationOpikTraceId := some response.opikTraceId,
              evaluatedAt := some now }
        (.ok adventure1, { db with adventures := saveAdventureRow db.adventures adventure1 })

/-! ## Concrete states used by the claim theorems -/

/-- Two seeded missions: one whose `activeDate` is the UTC midnight of the
UTC day of the call below, one at the server-local midnight instant. -/
def dbC3 : Db :=
  { missions := [⟨1, "utc-day mission", "log_expenses", some 3, none, 10, 0⟩,
                 ⟨2, "local-midnight mission", "log_expenses", some 3, none, 10, 1020⟩] }

/-- Wallet of 50 coins and the seeded pizza (price 15) for the purchase
atomicity experiment. -/
def dbC1 : Db :=
  { wallets := [⟨10, 1, 50⟩], nextWalletId := 11,
    foods := [⟨3, "Pizza Slice", 30, 15⟩] }

/-- A goal of target 1000 and a wallet of 50 coins for the goal-bonus
atomicity experiment. -/
def dbC1goal : Db :=
  { wallets := [⟨10, 1, 50⟩], nextWalletId := 11,
    goals := [⟨7, 1, "bike", 1000, 0, false, none⟩] }

/-- A 1-expense mission active at the lookup date of the call below, no
wallet yet, for the mission-reward atomicity experiment. -/
def dbC1mission : Db :=
  { missions := [⟨1, "m", "log_expenses", some 1, none, 10, 0⟩] }

/-- The seeded "Track Your Spending" mission: `missionType
'expense_tracking'`, `requirements.expenseCount = 3`, 10 reward coins,
active on the (UTC = local) day of the calls below. -/
def dbC2 : Db :=
  { missions := [⟨1, "Track Your Spending", "expense_tracking", some 3, none, 10, 0⟩] }

/-- Adventure awaiting submission plus the submitter's profile, for the
score-persistence experiment. -/
def dbC5 : Db :=
  { profiles := [⟨1, 10, 70000⟩],
    adventures := [⟨7, 1, "Kamu menemukan Rp 10.000", ["Menabung", "Jajan"],
      none, none, none, some "t1", none, none⟩] }

/-- The AI evaluate response of spec scenario S5: three named floats and a
trace id. -/
def respC5 : EvaluateChoiceResponse :=
  ⟨"Pilihan bagus",
   [("age_appropriateness", 9 / 10), ("goal_alignment", 19 / 20),
    ("financial_reasoning", 17 / 20)], "t2"⟩

/-- A seeded zero-price starter character and a zero-price food next to a
well-funded wallet. -/
def dbC10 : Db :=
  { wallets := [⟨1, 1, 100⟩], nextWalletId := 2,
    characters := [⟨5, "Foxy the Fox", true, 0⟩],
    foods := [⟨6, "Free Sample", 1, 0⟩] }

/-- A single wallet of 5 coins for the debit boundary cases. -/
def dbC6 : Db := { wallets := [⟨1, 1, 5⟩], nextWalletId := 2 }

/-- Scenario S1 step 4: tamagotchi at `(50, 50, 100)`, the seeded
nutrition-10 apple, 10 apples in inventory. -/
def dbC8 : Db :=
  { foods := [⟨2, "Apple", 10, 5⟩],
    inventory := [⟨1, "food", 2, 10⟩],
    tamagotchis := [⟨9, 1, 5, "Foxy", 50, 50, 100, none⟩] }

/-- A tamagotchi with `hunger = 0` and one apple, for the hunger floor. -/
def dbC8zero : Db :=
  { foods := [⟨2, "Apple", 10, 5⟩],
    inventory := [⟨1, "food", 2, 1⟩],
    tamagotchis := [⟨9, 1, 5, "Foxy", 0, 40, 80, none⟩] }

/-- Scenario S4: a fresh 1000-target goal (wallet not yet created). -/
def dbC9 : Db := { goals := [⟨7, 1, "bike", 1000, 0, false, none⟩] }

/-- An already-completed goal. -/
def dbC9done : Db := { goals := [⟨8, 1, "done", 50, 50, true, some 1⟩] }

/-- A goal whose target (5) is below 10, so the completion bonus floors
to 0. -/
def dbC9small : Db := { goals := [⟨9, 1, "small", 5, 0, false, none⟩] }

/-! ## Theorems -/

/-! ### Bridge lemmas: the kernel-reducible arithmetic agrees with the
standard `ℚ` operations -/

theorem ratAdd_eq (a b : ℚ) : ratAdd a b = a + b := by
  have ha : ((a.den : ℚ)) ≠ 0 := by exact_mod_cast a.den_nz
  have hb : ((b.den : ℚ)) ≠ 0 := by exact_mod_cast b.den_nz
  rw [ratAdd, Rat.mkRat_eq_divInt, Rat.divInt_eq_div]
  conv_rhs => rw [← Rat.num_div_den a, ← Rat.num_div_den b]
  push_cast
  field_simp

theorem ratSub_eq (a b : ℚ) : ratSub a b = a - b := by
  have ha : ((a.den : ℚ)) ≠ 0 := by exact_mod_cast a.den_nz
  have hb : ((b.den : ℚ)) ≠ 0 := by exact_mod_cast b.den_nz
  rw [ratSub, Rat.mkRat_eq_divInt, Rat.divInt_eq_div]
  conv_rhs => rw [← Rat.num_div_den a, ← Rat.num_div_den b]
  push_cast
  field_simp
  all_goals ring

theorem ratMul_eq (a b : ℚ) : ratMul a b = a * b := by
  have ha : ((a.den : ℚ)) ≠ 0 := by exact_mod_cast a.den_nz
  have hb : ((b.den : ℚ)) ≠ 0 := by exact_mod_cast b.den_nz
  rw [ratMul, Rat.mkRat_eq_divInt, Rat.divInt_eq_div]
  conv_rhs => rw [← Rat.num_div_den a, ← Rat.num_div_den b]
  push_cast
  field_simp

theorem ratDiv_eq (a b : ℚ) : ratDiv a b = a / b := by
  rcases eq_or_ne b 0 with hb0 | hb0
  · subst hb0
    simp [ratDiv, Rat.divInt_eq_div]
  · have ha : ((a.den : ℚ)) ≠ 0 := by exact_mod_cast a.den_nz
    have hb : ((b.den : ℚ)) ≠ 0 := by exact_mod_cast b.den_nz
    have hbn : ((b.num : ℚ)) ≠ 0 := by
      exact_mod_cast Rat.num_ne_zero.mpr hb0
    rw [ratDiv, Rat.divInt_eq_div]
    conv_rhs => rw [← Rat.num_div_den a, ← Rat.num_div_den b]
    push_cast
    field_simp

theorem ratMin_eq (a b : ℚ) : ratMin a b = min a b := by
  rw [ratMin, min_def]

theorem ratFloor_eq (a : ℚ) : ratFloor a = ⌊a⌋ := by
  rw [ratFloor, Rat.floor_def]

theorem mkRat_one_tenth : mkRat 1 10 = (1 / 10 : ℚ) := by
  norm_num [Rat.mkRat_eq_divInt, Rat.divInt_eq_div]

theorem goalBonus_eq (t : ℚ) : ratFloor (ratMul t (mkRat 1 10)) = ⌊t * (1 / 10 : ℚ)⌋ := by
  rw [ratFloor_eq, ratMul_eq, mkRat_one_tenth]

/-! ### Row-store lemmas: `find?` after an update-by-key map -/

/-- After replacing every `q`-row of `l` by `w`, a `find? p` that used to
return a `q`-row returns `w` (the update may also promote an earlier row
into `w`, which `find? p` then returns as well). -/
theorem find?_map_update {α : Type} (p q : α → Bool) (w : α) (l : List α) (x : α)
    (hf : l.find? p = some x) (hqx : q x = true) (hpw : p w = true) :
    (l.map (fun y => if q y then w else y)).find? p = some w := by
  induction l with
  | nil => simp at hf
  | cons a l ih =>
    rw [List.find?_cons] at hf
    by_cases hpa : p a = true
    · rw [hpa] at hf
      injection hf with hax
      subst hax
      simp [List.find?_cons, hqx, hpw]
    · rw [Bool.not_eq_true] at hpa
      rw [hpa] at hf
      by_cases hqa : q a = true
      · simp [List.find?_cons, hqa, hpw]
      · rw [Bool.not_eq_true] at hqa
        simpa [List.find?_cons, hqa, hpa] using ih hf

/-- Same, for a freshly appended row when `find? p` previously failed. -/
theorem find?_map_update_append {α : Type} (p q : α → Bool) (w w0 : α) (l : List α)
    (hf : l.find? p = none) (hq0 : q w0 = true) (hpw : p w = true) :
    ((l ++ [w0]).map (fun y => if q y then w else y)).find? p = some w := by
  induction l with
  | nil => simp [List.find?_cons, hq0, hpw]
  | cons a l ih =>
    rw [List.find?_cons] at hf
    by_cases hpa : p a = true
    · rw [hpa] at hf
      cases hf
    · rw [Bool.not_eq_true] at hpa
      rw [hpa] at hf
      by_cases hqa : q a = true
      · simp [List.find?_cons, hqa, hpw]
      · rw [Bool.not_eq_true] at hqa
        simpa [List.find?_cons, hqa, hpa] using ih hf

/-- `find? p` fails on a list from which every `p`-row was filtered out. -/
theorem find?_filter_not {α : Type} (p : α → Bool) (l : List α) :
    (l.filter (fun y => !(p y))).find? p = none := by
  induction l with
  | nil => rfl
  | cons a l ih =>
    by_cases hpa : p a = true
    · simpa [List.filter, hpa] using ih
    · rw [Bool.not_eq_true] at hpa
      simpa [List.filter, hpa] using ih

/-- C3: `MissionService.updateMissionProgress` resolves "today" with
`new Date(); today.setHours(0,0,0,0)` — the server-LOCAL midnight — and
`getTodaysMission` builds its lookup key from the LOCAL calendar-day
components, so on a UTC+7 server at 20:00 UTC the progress update selects
a mission that is neither the mission of the UTC date of the call nor the
mission `getTodaysMission` resolves.  Evaluated at `now = 1200` minutes
(1970-01-01T20:00Z) with `tz = 420` (UTC+7): the UTC date is midnight 0,
`getTodaysMission` looks up 1440 (Jan 2 00:00Z) and finds nothing, and the
progress update looks up 1020 (Jan 1 17:00Z = local midnight of Jan 2) and
selects the `activeDate = 1020` mission. -/
theorem mission_lookup_uses_local_day :
    utcDateOf 1200 = 0 ∧
    getTodaysMissionLookupDate 1200 420 = 1440 ∧
    updateMissionProgressLookupDate 1200 420 = 1020 ∧
    selectMissionByDate dbC3.missions (utcDateOf 1200) =
      some ⟨1, "utc-day mission", "log_expenses", some 3, none, 10, 0⟩ ∧
    getTodaysMissionSelect dbC3 1200 420 = none ∧
    selectMissionByDate dbC3.missions (updateMissionProgressLookupDate 1200 420) =
      some ⟨2, "local-midnight mission", "log_expenses", some 3, none, 10, 1020⟩ := by
  refine ⟨by decide, by decide, by decide, ?_, ?_, ?_⟩ <;>
    simp [dbC3, selectMissionByDate, getTodaysMissionSelect, getTodaysMissionLookupDate,
      updateMissionProgressLookupDate, utcDateOf, minutesPerDay, List.find?]

/-- C4: because `handleError` wraps every axios failure into a plain
`Error` before `retryWithBackoff` inspects it, `isRetryableError` is
always false, so no attempt is ever retried (no backoff delay is ever
slept) and EVERY failure — two 5xx followed by a would-be-successful 200,
or a single non-retryable 400 — surfaces as `ServiceUnavailableException`,
with the default config `maxRetries = 3`, `retryDelay = 1000`. -/
theorem ai_retry_never_retries :
    aiServiceCall
        (fun i => if i < 2 then .httpError 500 "Internal Server Error" else .ok "generated") 3 1000 =
      (.error (.serviceUnavailable "AI service is currently unavailable. Please try again later."),
        []) ∧
    aiServiceCall (fun _ => .httpError 400 "Bad Request") 3 1000 =
      (.error (.serviceUnavailable "AI service is currently unavailable. Please try again later."),
        []) ∧
    aiServiceCall (fun _ => .networkError) 3 1000 =
      (.error (.serviceUnavailable "AI service is currently unavailable. Please try again later."),
        []) := by
  refine ⟨?_, ?_, ?_⟩ <;> rfl

/-- C10: purchasing any catalog item whose `price` is 0 — of either item
type, character (for example the seeded starter characters) or food —
fails for every user and every database state: `purchaseItem`
unconditionally calls `walletService.debit(userId, price)`, and `debit`
rejects non-positive amounts with `"Debit amount must be positive"` before
touching any state, so no zero-price item can ever be acquired through
`Purchase`. -/
theorem zero_price_purchase_rejected (db : Db) (u itemId : Nat) :
    (∀ c : Character, db.characters.find? (fun x => x.id == itemId) = some c → c.price = 0 →
      purchaseItem db u itemId "character" false =
        (.error (.badRequest "Debit amount must be positive"), db)) ∧
    (∀ f : Food, db.foods.find? (fun x => x.id == itemId) = some f → f.price = 0 →
      purchaseItem db u itemId "food" false =
        (.error (.badRequest "Debit amount must be positive"), db)) := by
  constructor
  · intro c hfind hprice
    simp [purchaseItem, hfind, hprice, walletDebit]
  · intro f hfind hprice
    simp [purchaseItem, hfind, hprice, walletDebit]

/-- C10 witness: buying the seeded price-0 starter character "Foxy the Fox"
and buying the price-0 food "Free Sample" both fail with the
debit-validation error even though the buyer holds 100 coins. -/
theorem zero_price_purchase_rejected_witness :
    purchaseItem dbC10 1 5 "character" false =
      (.error (.badRequest "Debit amount must be positive"), dbC10) ∧
    purchaseItem dbC10 1 6 "food" false =
      (.error (.badRequest "Debit amount must be positive"), dbC10) :=
  ⟨(zero_price_purchase_rejected dbC10 1 5).1 ⟨5, "Foxy the Fox", true, 0⟩ rfl rfl,
   (zero_price_purchase_rejected dbC10 1 6).2 ⟨6, "Free Sample", 1, 0⟩ rfl rfl⟩

/-- C1: the wallet writes of `Purchase`, `AddProgress` and `LogExpense` are
NOT rolled back when a later step of the enclosing operation fails,
because `walletService.debit`/`credit` run `dataSource.transaction` on
their own connection and commit independently of the caller's manager.
With a storage failure injected at the step after the wallet write:
(a) a purchase of the 15-coin pizza from a 50-coin wallet fails, yet the
wallet ends at 35 with the `-15` ledger row committed and no inventory
row; (b) completing a 1000-target goal fails at the goal save, yet the
150-coin wallet keeps the 100-coin bonus and the goal stays incomplete;
(c) an expense log that completes a 10-coin mission fails at the
user-mission save, yet the wallet keeps the 10 coins while the expense row
and the user-mission row are rolled back. -/
theorem wallet_write_not_rolled_back :
    (purchaseItem dbC1 1 3 "food" true).1 = .error (.internal "inventory save failed") ∧
    walletBalance (purchaseItem dbC1 1 3 "food" true).2 1 = 35 ∧
    ((purchaseItem dbC1 1 3 "food" true).2.walletTxs.map
      (fun tx => (tx.walletId, tx.amount, tx.transactionType))) = [(10, -15, "shop_purchase")] ∧
    (purchaseItem dbC1 1 3 "food" true).2.inventory = [] ∧
    (addProgress dbC1goal 7 1 1000 99 true).1 = .error (.internal "goal save failed") ∧
    walletBalance (addProgress dbC1goal 7 1 1000 99 true).2 1 = 150 ∧
    (addProgress dbC1goal 7 1 1000 99 true).2.goals = [⟨7, 1, "bike", 1000, 0, false, none⟩] ∧
    (logExpense dbC1mission 1 5 "snack" (some "d") 600 0 true).1 =
      .error (.internal "user mission save failed") ∧
    walletBalance (logExpense dbC1mission 1 5 "snack" (some "d") 600 0 true).2 1 = 10 ∧
    (logExpense dbC1mission 1 5 "snack" (some "d") 600 0 true).2.expenses = [] ∧
    (logExpense dbC1mission 1 5 "snack" (some "d") 600 0 true).2.userMissions = [] := by
  decide

/-- C2: a mission with `missionType = 'expense_tracking'` (as seeded by
`seedMissions` and `seed.ts`), `requirements.expenseCount = 3` and
`rewardCoins = 10` never progresses: `calculateProgress` has branches only
for `log_expenses` / `log_savings` / `combined` and returns 0 for
`expense_tracking`, so after three successful `logExpense` calls the
returned `missionProgress` is 0 — not 100 —, `missionCompleted` is false,
the user-mission row holds `expenseCount = 3` yet stays incomplete, and no
reward is credited. -/
theorem expense_tracking_mission_never_progresses :
    (logExpense dbC2 1 1 "snack" (some "d") 600 0 false).1 =
      .ok (⟨true, 0, false⟩, ⟨1, 1, "snack", some "d"⟩) ∧
    ((logExpense ((logExpense ((logExpense dbC2 1 1 "snack" (some "d") 600 0 false).2)
        1 1 "snack" (some "d") 600 0 false).2) 1 1 "snack" (some "d") 600 0 false).1 =
      .ok (⟨true, 0, false⟩, ⟨1, 1, "snack", some "d"⟩)) ∧
    findUserMission ((logExpense ((logExpense ((logExpense dbC2 1 1 "snack" (some "d") 600 0
        false).2) 1 1 "snack" (some "d") 600 0 false).2) 1 1 "snack" (some "d") 600 0 false).2)
      1 1 = some ⟨1, 1, some 3, none, false, none⟩ ∧
    walletBalance ((logExpense ((logExpense ((logExpense dbC2 1 1 "snack" (some "d") 600 0
        false).2) 1 1 "snack" (some "d") 600 0 false).2) 1 1 "snack" (some "d") 600 0 false).2)
      1 = 0 ∧
    ((logExpense ((logExpense ((logExpense dbC2 1 1 "snack" (some "d") 600 0 false).2)
        1 1 "snack" (some "d") 600 0 false).2) 1 1 "snack" (some "d") 600 0 false).2).walletTxs
      = [] ∧
    calculateProgress ⟨1, "Track Your Spending", "expense_tracking", some 3, none, 10, 0⟩
      (some 3) none = 0 := by
  decide

/-- C5: for a successful `SubmitChoice`, `selectedChoiceIndex` and
`evaluationTraceId` are persisted as the claim says, but the scores are
NOT stored as given: `submitChoice` reads the three fixed properties
`financial_wisdom`, `long_term_thinking`, `responsibility` from
`response.scores`, so when the AI emits
`{age_appropriateness: 0.9, goal_alignment: 0.95, financial_reasoning: 0.85}`
(the deployed AI coach's documented schema, spec scenario S5) the
persisted map holds the three fixed keys with `undefined` values and none
of the floats the AI emitted. -/
theorem submit_choice_drops_ai_scores :
    (submitChoice dbC5 1 7 0 respC5 999).1 =
      .ok ⟨7, 1, "Kamu menemukan Rp 10.000", ["Menabung", "Jajan"], some 0,
        some "Pilihan bagus",
        some [("financial_wisdom", none), ("long_term_thinking", none),
          ("responsibility", none)],
        some "t1", some "t2", some 999⟩ ∧
    ((submitChoice dbC5 1 7 0 respC5 999).2.adventures.map
      (fun a => (a.scores.getD []).map Prod.fst)) =
        [["financial_wisdom", "long_term_thinking", "responsibility"]] := by
  refine ⟨?_, ?_⟩ <;>
    simp [dbC5, respC5, submitChoice, findAdventure, jsGet, saveAdventureRow, List.find?]

/-- C6 counterexample: `WalletService.debit` does NOT lock-or-upsert the
wallet row.  For a user with no wallet, the debit fails with `NotFound`
("Wallet not found"), no wallet row is created, and the outcome is not the
`InsufficientFunds` rejection the claim's create-with-balance-0 reading
would produce. -/
theorem debit_missing_wallet_not_upserted :
    walletDebit {} 1 5 "test" (some "d") = (.error (.notFound "Wallet not found"), {}) ∧
    (walletDebit {} 1 5 "test" (some "d")).2.wallets = [] ∧
    (walletDebit {} 1 5 "test" (some "d")).1 ≠
      .error (.badRequest ("Insufficient balance. Current: " ++ toString (0 : ℚ) ++
        ", Required: " ++ toString (5 : ℚ))) := by
  decide

/-- C6 (amended): for `Debit(userId, amount)` with `amount > 0` — a missing
wallet row fails with `NotFound` (the row is NOT upserted); an existing
wallet with `balance < amount` fails with `InsufficientFunds`, leaving
state unchanged; otherwise the balance decreases by `amount` and exactly
one ledger row with signed amount `-amount` referencing that wallet is
appended in the same transaction.  In particular `Debit(u, balance)`
succeeds leaving balance 0 and `Debit(u, balance + 0.01)` fails with
`InsufficientFunds` (see the witness). -/
theorem debit_spec (db : Db) (u : Nat) (amount : Money) (ty : String) (d : Option String)
    (hpos : 0 < amount) :
    (findWallet db u = none →
      walletDebit db u amount ty d = (.error (.notFound "Wallet not found"), db)) ∧
    (∀ w, findWallet db u = some w → w.balance < amount →
      walletDebit db u amount ty d =
        (.error (.badRequest ("Insufficient balance. Current: " ++ toString w.balance ++
          ", Required: " ++ toString amount)), db)) ∧
    (∀ w, findWallet db u = some w → amount ≤ w.balance →
      (walletDebit db u amount ty d).1 = .ok { w with balance := w.balance - amount } ∧
      findWallet (walletDebit db u amount ty d).2 u =
        some { w with balance := w.balance - amount } ∧
      (walletDebit db u amount ty d).2.walletTxs =
        db.walletTxs ++ [⟨w.id, -amount, ty, d.getD ("Debited " ++ toString amount ++ " coins")⟩]) := by
  have hnle : ¬ amount ≤ 0 := not_le.mpr hpos
  refine ⟨?_, ?_, ?_⟩
  · intro hw
    simp [walletDebit, hnle, hw]
  · intro w hw hlt
    simp [walletDebit, hnle, hw, hlt]
  · intro w hw hle
    have hnlt : ¬ w.balance < amount := not_lt.mpr hle
    have hw' : db.wallets.find? (fun x => x.userId == u) = some w := hw
    have hpw := List.find?_some hw'
    have hmain := find?_map_update (fun x => x.userId == u) (fun x => x.id == w.id)
      ({ w with balance := w.balance - amount }) db.wallets w hw' (by simp) (by simpa using hpw)
    refine ⟨?_, ?_, ?_⟩
    · simp [walletDebit, hnle, hw, hnlt, ratSub_eq]
    · simp only [walletDebit, hnle, if_false, hw, hnlt, ratSub_eq]
      simpa [findWallet, saveWalletRow, ratSub_eq] using hmain
    · simp [walletDebit, hnle, hw, hnlt, ratSub_eq]

/-- C6 witness: on the 5-coin wallet of `dbC6`, `Debit(1, 5)` succeeds and
leaves balance 0 with a `-5` ledger row, and `Debit(1, 5 + 1/100)` fails
with the insufficiency error, leaving the state unchanged. -/
theorem debit_spec_witness :
    (walletDebit dbC6 1 5 "test" (some "d")).1 = .ok ⟨1, 1, 0⟩ ∧
    (walletDebit dbC6 1 5 "test" (some "d")).2.walletTxs = [⟨1, -5, "test", "d"⟩] ∧
    walletDebit dbC6 1 (5 + 1 / 100) "test" (some "d") =
      (.error (.badRequest ("Insufficient balance. Current: " ++ toString (5 : ℚ) ++
        ", Required: " ++ toString (5 + 1 / 100 : ℚ))), dbC6) := by
  have h5 := debit_spec dbC6 1 5 "test" (some "d") (by norm_num)
  have hcent := debit_spec dbC6 1 (5 + 1 / 100) "test" (some "d") (by norm_num)
  refine ⟨?_, ?_, ?_⟩
  · have := (h5.2.2 ⟨1, 1, 5⟩ rfl (by norm_num)).1
    simpa using this
  · have := (h5.2.2 ⟨1, 1, 5⟩ rfl (by norm_num)).2.2
    simpa [dbC6] using this
  · exact hcent.2.1 ⟨1, 1, 5⟩ rfl (by norm_num)

/-- `walletBalance` ignores the `goals` column. -/
theorem walletBalance_goals_update (db2 : Db) (gs : List Goal) (u : Nat) :
    walletBalance { db2 with goals := gs } u = walletBalance db2 u := rfl

/-- `WalletService.credit` with a positive amount: the user's balance grows
by `amount`, exactly one `(+amount, type)` ledger row is appended, and no
table other than the wallet tables is touched. -/
theorem walletCredit_spec (db : Db) (u : Nat) (amount : Money) (ty : String) (d : Option String)
    (hpos : 0 < amount) :
    walletBalance (walletCredit db u amount ty d).2 u = walletBalance db u + amount ∧
    (walletCredit db u amount ty d).2.goals = db.goals ∧
    (walletCredit db u amount ty d).2.userMissions = db.userMissions ∧
    (walletCredit db u amount ty d).2.expenses = db.expenses ∧
    (walletCredit db u amount ty d).2.walletTxs.map (fun tx => (tx.amount, tx.transactionType)) =
      db.walletTxs.map (fun tx => (tx.amount, tx.transactionType)) ++ [(amount, ty)] ∧
    ∃ w, (walletCredit db u amount ty d).1 = .ok w := by
  have hnle : ¬ amount ≤ 0 := not_le.mpr hpos
  cases hfw : findWallet db u with
  | some w =>
    have hw' : db.wallets.find? (fun x => x.userId == u) = some w := hfw
    have hpw := List.find?_some hw'
    have hmain := find?_map_update (fun x => x.userId == u) (fun x => x.id == w.id)
      ({ w with balance := ratAdd w.balance amount }) db.wallets w hw' (by simp)
      (by simpa using hpw)
    have hfind : findWallet (walletCredit db u amount ty d).2 u =
        some { w with balance := ratAdd w.balance amount } := by
      simp only [walletCredit, if_neg hnle, findWallet, saveWalletRow, hw']
      exact hmain
    refine ⟨?_, ?_, ?_, ?_, ?_, ?_⟩
    · rw [walletBalance, hfind, walletBalance, hfw]
      simp [ratAdd_eq]
    · simp [walletCredit, hnle, hfw]
    · simp [walletCredit, hnle, hfw]
    · simp [walletCredit, hnle, hfw]
    · simp [walletCredit, hnle, hfw]
    · exact ⟨{ w with balance := ratAdd w.balance amount }, by simp [walletCredit, hnle, hfw]⟩
  | none =>
    have hw' : db.wallets.find? (fun x => x.userId == u) = none := hfw
    have hmain := find?_map_update_append (fun x => x.userId == u)
      (fun x => x.id == db.nextWalletId)
      ({ id := db.nextWalletId, userId := u, balance := ratAdd 0 amount })
      ⟨db.nextWalletId, u, 0⟩ db.wallets hw' (by simp) (by simp)
    have hfind : findWallet (walletCredit db u amount ty d).2 u =
        some { id := db.nextWalletId, userId := u, balance := ratAdd 0 amount } := by
      simp only [walletCredit, if_neg hnle, findWallet, saveWalletRow, hw', Option.getD_none]
      exact hmain
    refine ⟨?_, ?_, ?_, ?_, ?_, ?_⟩
    · rw [walletBalance, hfind, walletBalance, hfw]
      simp [ratAdd_eq]
    · simp [walletCredit, hnle, hfw]
    · simp [walletCredit, hnle, hfw]
    · simp [walletCredit, hnle, hfw]
    · simp [walletCredit, hnle, hfw]
    · exact ⟨{ id := db.nextWalletId, userId := u, balance := ratAdd 0 amount },
        by simp [walletCredit, hnle, hfw]⟩

/-- C9 counterexample: completing a goal whose `targetAmount` is 5 does NOT
succeed: the bonus `Math.floor(5 * 0.1)` is 0, `walletService.credit`
rejects the non-positive amount, and the whole `addProgress` transaction
fails with `"Credit amount must be positive"` — the goal is left
incomplete. -/
theorem goal_completion_small_target_fails :
    addProgress dbC9small 9 1 5 99 false =
      (.error (.badRequest "Credit amount must be positive"), dbC9small) ∧
    findGoal (addProgress dbC9small 9 1 5 99 false).2 9 1 =
      some ⟨9, 1, "small", 5, 0, false, none⟩ := by
  decide

/-- C9 (amended): for a goal found for `(goalId, userId)` and
`amount > 0` — an `AddProgress` on an already-completed goal is rejected
with `AlreadyCompleted`; an `AddProgress` whose resulting `currentAmount`
reaches `targetAmount` succeeds, flips `completed`, sets `completedAt` and
credits `bonus = ⌊targetAmount × 0.1⌋` (reported as `bonusAwarded`)
PROVIDED the bonus is positive, i.e. `targetAmount ≥ 10`; when
`targetAmount < 10` the bonus floors to 0 and the completing call instead
fails with `InvalidAmount` ("Credit amount must be positive"), leaving
state unchanged. -/
theorem add_progress_spec (db : Db) (goalId u : Nat) (amount : Money) (now : Int) (g : Goal)
    (hg : findGoal db goalId u = some g) (hpos : 0 < amount) :
    (g.completed = true →
      addProgress db goalId u amount now false =
        (.error (.badRequest "Goal is already completed"), db)) ∧
    (g.completed = false → g.targetAmount ≤ g.currentAmount + amount → 10 ≤ g.targetAmount →
      (addProgress db goalId u amount now false).1 =
        .ok ⟨g.id, g.currentAmount + amount,
          goalCalculateProgress (g.currentAmount + amount) g.targetAmount, true,
          some ⌊g.targetAmount * (1 / 10 : ℚ)⌋⟩ ∧
      walletBalance (addProgress db goalId u amount now false).2 u =
        walletBalance db u + (⌊g.targetAmount * (1 / 10 : ℚ)⌋ : ℚ) ∧
      findGoal (addProgress db goalId u amount now false).2 goalId u =
        some { g with currentAmount := g.currentAmount + amount, completed := true,
                      completedAt := some now }) ∧
    (g.completed = false → g.targetAmount ≤ g.currentAmount + amount → g.targetAmount < 10 →
      addProgress db goalId u amount now false =
        (.error (.badRequest "Credit amount must be positive"), db)) := by
  have hnle : ¬ amount ≤ 0 := not_le.mpr hpos
  refine ⟨?_, ?_, ?_⟩
  · intro hc
    simp [addProgress, hnle, hg, hc]
  · intro hc hmeets hbig
    have hra : ratAdd g.currentAmount amount = g.currentAmount + amount := ratAdd_eq _ _
    have hcond : g.targetAmount ≤ ratAdd g.currentAmount amount := by
      rw [hra]; exact hmeets
    have hbfloor : ratFloor (ratMul g.targetAmount (mkRat 1 10)) =
        ⌊g.targetAmount * (1 / 10 : ℚ)⌋ := goalBonus_eq _
    have hone : (1 : ℤ) ≤ ⌊g.targetAmount * (1 / 10 : ℚ)⌋ := by
      rw [Int.le_floor]
      push_cast
      linarith
    have hbpos : (0 : ℚ) < ((ratFloor (ratMul g.targetAmount (mkRat 1 10)) : Int) : ℚ) := by
      rw [hbfloor]
      exact_mod_cast Int.lt_of_lt_of_le zero_lt_one hone
    have hspec := walletCredit_spec db u ((ratFloor (ratMul g.targetAmount (mkRat 1 10)) : Int) : ℚ)
      "goal_bonus" (some ("Completed goal: " ++ g.title)) hbpos
    obtain ⟨w, hok⟩ := hspec.2.2.2.2.2
    have hpair : walletCredit db u ((ratFloor (ratMul g.targetAmount (mkRat 1 10)) : Int) : ℚ)
        "goal_bonus" (some ("Completed goal: " ++ g.title)) =
        (.ok w, (walletCredit db u ((ratFloor (ratMul g.targetAmount (mkRat 1 10)) : Int) : ℚ)
          "goal_bonus" (some ("Completed goal: " ++ g.title))).2) := by
      rw [← hok]
    have hred : addProgress db goalId u amount now false =
        (.ok ⟨g.id, ratAdd g.currentAmount amount,
          goalCalculateProgress (ratAdd g.currentAmount amount) g.targetAmount, true,
          some (ratFloor (ratMul g.targetAmount (mkRat 1 10)))⟩,
         { (walletCredit db u ((ratFloor (ratMul g.targetAmount (mkRat 1 10)) : Int) : ℚ)
             "goal_bonus" (some ("Completed goal: " ++ g.title))).2 with
           goals := saveGoalRow (walletCredit db u
             ((ratFloor (ratMul g.targetAmount (mkRat 1 10)) : Int) : ℚ)
             "goal_bonus" (some ("Completed goal: " ++ g.title))).2.goals
             { g with currentAmount := ratAdd g.currentAmount amount, completed := true,
                      completedAt := some now } }) := by
      simp only [addProgress, if_neg hnle, hg, hc, Bool.false_eq_true, if_false,
        if_pos hcond]
      rw [hpair]
    refine ⟨?_, ?_, ?_⟩
    · rw [hred]
      rw [hra, hbfloor]
    · rw [hred]
      rw [walletBalance_goals_update, hspec.1, hbfloor]
    · rw [hred]
      have hg' : db.goals.find? (fun x => x.id == goalId && x.userId == u) = some g := hg
      have hpg := List.find?_some hg'
      have hfg := find?_map_update (fun x => x.id == goalId && x.userId == u)
        (fun x => x.id == g.id)
        ({ g with currentAmount := ratAdd g.currentAmount amount, completed := true,
                  completedAt := some now }) db.goals g hg' (by simp) (by simpa using hpg)
      simp only [findGoal, saveGoalRow, hspec.2.1]
      rw [← hra]
      exact hfg
  · intro hc hmeets hsmall
    have hcond : g.targetAmount ≤ ratAdd g.currentAmount amount := by
      rw [ratAdd_eq]; exact hmeets
    have hblt : ⌊g.targetAmount * (1 / 10 : ℚ)⌋ < 1 := by
      rw [Int.floor_lt]
      push_cast
      linarith
    have hble : ((ratFloor (ratMul g.targetAmount (mkRat 1 10)) : Int) : ℚ) ≤ 0 := by
      rw [goalBonus_eq]
      exact_mod_cast Int.lt_add_one_iff.mp hblt
    simp [addProgress, hnle, hg, hc, if_pos hcond, walletCredit, hble]

/-- C9 witness: scenario S4 — adding 1000 to the fresh 1000-target goal
completes it with `bonusAwarded = 100` and credits 100 to the wallet, and
a further `AddProgress` on an already-completed goal is rejected with
`AlreadyCompleted`. -/
theorem add_progress_spec_witness :
    (addProgress dbC9 7 1 1000 99 false).1 = .ok ⟨7, 1000, 100, true, some 100⟩ ∧
    walletBalance (addProgress dbC9 7 1 1000 99 false).2 1 = 100 ∧
    findGoal (addProgress dbC9 7 1 1000 99 false).2 7 1 =
      some ⟨7, 1, "bike", 1000, 1000, true, some 99⟩ ∧
    addProgress dbC9done 8 1 5 99 false =
      (.error (.badRequest "Goal is already completed"), dbC9done) := by
  have h := add_progress_spec dbC9 7 1 1000 99 ⟨7, 1, "bike", 1000, 0, false, none⟩ rfl
    (by norm_num)
  have hdone := add_progress_spec dbC9done 8 1 5 99 ⟨8, 1, "done", 50, 50, true, some 1⟩ rfl
    (by norm_num)
  have h2 := h.2.1 rfl (by norm_num) (by norm_num)
  refine ⟨?_, ?_, ?_, ?_⟩
  · rw [h2.1]
    norm_num [goalCalculateProgress, ratMin_eq, ratDiv_eq, ratMul_eq]
  · rw [h2.2.1]
    have hb : walletBalance dbC9 1 = 0 := rfl
    rw [hb]
    norm_num
  · rw [h2.2.2]
    norm_num
  · exact hdone.1 rfl

/-- C8: `Feed(userId, foodId)` where the user owns the food (inventory
quantity ≥ 1), with `n = food.nutritionValue` and tamagotchi stats
`(hunger, happiness, health)`: the new stats are
`hunger' = max(0, hunger − n)`,
`happiness' = min(100, happiness + ⌊n / 2⌋)`, and
`health' = min(100, health + 5)` if `hunger' < 30` else unchanged;
`lastFedAt` is set to the call time and exactly one unit of the food is
consumed from the inventory (the row is deleted when it reaches 0). -/
theorem feed_spec (db : Db) (u foodId : Nat) (now : Int) (t : TamagotchiRow) (food : Food)
    (inv : InventoryRow)
    (ht : findTamagotchi db u = some t)
    (hf : db.foods.find? (fun f => f.id == foodId) = some food)
    (hi : findInventory db u "food" foodId = some inv)
    (hq : 1 ≤ inv.quantity) :
    (feedTamagotchi db u foodId now).1 =
      .ok ⟨max 0 (t.hunger - food.nutritionValue),
           min 100 (t.happiness + food.nutritionValue.fdiv 2),
           if max 0 (t.hunger - food.nutritionValue) < 30 then min 100 (t.health + 5)
           else t.health⟩ ∧
    findTamagotchi (feedTamagotchi db u foodId now).2 u =
      some { t with hunger := max 0 (t.hunger - food.nutritionValue),
                    happiness := min 100 (t.happiness + food.nutritionValue.fdiv 2),
                    health := if max 0 (t.hunger - food.nutritionValue) < 30
                              then min 100 (t.health + 5) else t.health,
                    lastFedAt := some now } ∧
    inventoryQty (feedTamagotchi db u foodId now).2 u "food" foodId = inv.quantity - 1 := by
  have hq0 : (0 : Int) < inv.quantity := by omega
  have hnlt1 : ¬ inv.quantity < 1 := by omega
  have hi' : db.inventory.find? (fun r => r.userId == u && r.itemType == "food" &&
      r.itemId == foodId) = some inv := hi
  have ht' : db.tamagotchis.find? (fun x => x.userId == u) = some t := ht
  have hpt := List.find?_some ht'
  have hpi := List.find?_some hi'
  have howns : userOwnsItem db u foodId "food" = true := by
    simp [userOwnsItem, hi, hq0]
  have hmaint := find?_map_update (fun x => x.userId == u) (fun x => x.id == t.id)
    ({ t with hunger := max 0 (t.hunger - food.nutritionValue),
              happiness := min 100 (t.happiness + food.nutritionValue.fdiv 2),
              health := if max 0 (t.hunger - food.nutritionValue) < 30
                        then min 100 (t.health + 5) else t.health,
              lastFedAt := some now }) db.tamagotchis t ht' (by simp) (by simpa using hpt)
  by_cases h0 : inv.quantity - 1 = 0
  · have hres : feedTamagotchi db u foodId now =
        (.ok ⟨max 0 (t.hunger - food.nutritionValue),
              min 100 (t.happiness + food.nutritionValue.fdiv 2),
              if max 0 (t.hunger - food.nutritionValue) < 30 then min 100 (t.health + 5)
              else t.health⟩,
         { db with
             tamagotchis := saveTamagotchiRow db.tamagotchis
               { t with hunger := max 0 (t.hunger - food.nutritionValue),
                        happiness := min 100 (t.happiness + food.nutritionValue.fdiv 2),
                        health := if max 0 (t.hunger - food.nutritionValue) < 30
                                  then min 100 (t.health + 5) else t.health,
                        lastFedAt := some now },
             inventory := removeInventoryRow db.inventory u "food" foodId }) := by
      simp [feedTamagotchi, ht, hf, howns, consumeItem, findInventory, hi', hnlt1, h0]
    refine ⟨?_, ?_, ?_⟩
    · rw [hres]
    · rw [hres]
      simp only [findTamagotchi, saveTamagotchiRow]
      exact hmaint
    · rw [hres]
      simp only [inventoryQty, findInventory, removeInventoryRow]
      rw [find?_filter_not]
      simp
      omega
  · have hres : feedTamagotchi db u foodId now =
        (.ok ⟨max 0 (t.hunger - food.nutritionValue),
              min 100 (t.happiness + food.nutritionValue.fdiv 2),
              if max 0 (t.hunger - food.nutritionValue) < 30 then min 100 (t.health + 5)
              else t.health⟩,
         { db with
             tamagotchis := saveTamagotchiRow db.tamagotchis
               { t with hunger := max 0 (t.hunger - food.nutritionValue),
                        happiness := min 100 (t.happiness + food.nutritionValue.fdiv 2),
                        health := if max 0 (t.hunger - food.nutritionValue) < 30
                                  then min 100 (t.health + 5) else t.health,
                        lastFedAt := some now },
             inventory := saveInventoryRow db.inventory
               { inv with quantity := inv.quantity - 1 } }) := by
      simp [feedTamagotchi, ht, hf, howns, consumeItem, findInventory, hi', hnlt1, h0]
    have hmaini := find?_map_update
      (fun r => r.userId == u && r.itemType == "food" && r.itemId == foodId)
      (fun r => r.userId == inv.userId && r.itemType == inv.itemType && r.itemId == inv.itemId)
      ({ inv with quantity := inv.quantity - 1 }) db.inventory inv hi' (by simp)
      (by simpa using hpi)
    refine ⟨?_, ?_, ?_⟩
    · rw [hres]
    · rw [hres]
      simp only [findTamagotchi, saveTamagotchiRow]
      exact hmaint
    · rw [hres]
      simp only [inventoryQty, findInventory, saveInventoryRow]
      rw [hmaini]
      simp

/-- C8 witness: scenario S1 step 4 — feeding the nutrition-10 apple at
`(50, 50, 100)` yields `(40, 55, 100)` and the inventory drops from 10
to 9; and feeding at `hunger = 0` leaves hunger at 0 while happiness still
rises (40 → 45). -/
theorem feed_spec_witness :
    (feedTamagotchi dbC8 1 2 5).1 = .ok ⟨40, 55, 100⟩ ∧
    inventoryQty (feedTamagotchi dbC8 1 2 5).2 1 "food" 2 = 9 ∧
    (feedTamagotchi dbC8zero 1 2 5).1 = .ok ⟨0, 45, 85⟩ ∧
    inventoryQty (feedTamagotchi dbC8zero 1 2 5).2 1 "food" 2 = 0 := by
  have h1 := feed_spec dbC8 1 2 5 ⟨9, 1, 5, "Foxy", 50, 50, 100, none⟩ ⟨2, "Apple", 10, 5⟩
    ⟨1, "food", 2, 10⟩ rfl rfl rfl (by norm_num)
  have h2 := feed_spec dbC8zero 1 2 5 ⟨9, 1, 5, "Foxy", 0, 40, 80, none⟩ ⟨2, "Apple", 10, 5⟩
    ⟨1, "food", 2, 1⟩ rfl rfl rfl (by norm_num)
  refine ⟨?_, ?_, ?_, ?_⟩
  · rw [h1.1]
    decide
  · rw [h1.2.2]
    decide
  · rw [h2.1]
    decide
  · rw [h2.2.2]
    decide

end SaverFox
